import Mathlib

/-!
Shallow embedding of `src/data/feature_engineering.py`
(`feature_engineering_noaa_climate_data`, called FeatureBuilder in the spec).

A pandas `DataFrame` is modelled column-wise: every column is a
`List (Option ℚ)` (`none` = NaN / missing, `some q` = a float value,
floats modelled as rationals).  A raw input row carries its parsed `DATE`
(only the calendar attributes the code reads) and the four climate
variables, each possibly missing.  Positional `Series.shift` and the
trailing `rolling(window=5).mean()` (default `min_periods = 5`, so a
window holding any missing value or fewer than 5 entries yields missing)
are modelled directly on lists.
-/

/-- Calendar attributes of a parsed `DATE` that the code reads via the
pandas `.dt` accessors (`year`, `month`, `dayofyear`, `isocalendar().week`). -/
structure Date where
  year : ℤ
  month : ℤ
  dayOfYear : ℤ
  weekOfYear : ℤ
deriving DecidableEq

/-- One raw input record: `DATE` plus the four climate variables, each
possibly missing (NaN in the CSV). -/
structure RawRow where
  date : Date
  PRCP : Option ℚ
  TMIN : Option ℚ
  TAVG : Option ℚ
  TMAX : Option ℚ
deriving DecidableEq

/-- The four climate variables `climate_vars = ['PRCP', 'TMIN', 'TAVG', 'TMAX']`. -/
inductive Var
  | PRCP
  | TMIN
  | TAVG
  | TMAX
deriving DecidableEq

/-- The list of all climate variables, in the order of `climate_vars`. -/
def Var.all : List Var := [Var.PRCP, Var.TMIN, Var.TAVG, Var.TMAX]

/-- Project a climate variable out of a raw row. -/
def RawRow.val (r : RawRow) : Var → Option ℚ
  | Var.PRCP => r.PRCP
  | Var.TMIN => r.TMIN
  | Var.TAVG => r.TAVG
  | Var.TMAX => r.TMAX

/-- Tenths of a degree Celsius to Fahrenheit:
`df['T...'] / 10 * (9 / 5) + 32`. -/
def tenthsCtoF (x : ℚ) : ℚ := x / 10 * (9 / 5) + 32

/-- The three temperature-conversion assignments; `PRCP` is untouched and
`DATE` is unaffected.  A missing value stays missing (NaN arithmetic). -/
def convert (r : RawRow) : RawRow :=
  { r with
    TMIN := r.TMIN.map tenthsCtoF
    TAVG := r.TAVG.map tenthsCtoF
    TMAX := r.TMAX.map tenthsCtoF }

/-- Unit conversion followed by the year filter
`df = df[df['YEAR'] >= 2013]`: the series every later step works on. -/
def filtered (rows : List RawRow) : List RawRow :=
  (rows.map convert).filter (fun r => decide (2013 ≤ r.date.year))

/-- Positional `Series.shift i` (i may be negative): position `p` of the
result holds the value at position `p - i` of `xs`, missing when that
position does not exist. -/
def shift (i : ℤ) (xs : List (Option ℚ)) : List (Option ℚ) :=
  (List.range xs.length).map fun (p : ℕ) =>
    if 0 ≤ (p : ℤ) - i then xs.getD ((p : ℤ) - i).toNat none else none

/-- Mean of five values, missing as soon as one of them is missing
(`rolling(window=5).mean()` with the default `min_periods = 5`). -/
def mean5 : Option ℚ → Option ℚ → Option ℚ → Option ℚ → Option ℚ → Option ℚ
  | some a, some b, some c, some d, some e => some ((a + b + c + d + e) / 5)
  | _, _, _, _, _ => none

/-- Trailing `rolling(window=5).mean()`: at position `p` the mean of
positions `p-4 .. p`, missing while fewer than five positions exist. -/
def rolling5mean (xs : List (Option ℚ)) : List (Option ℚ) :=
  (List.range xs.length).map fun p =>
    if 4 ≤ p then
      mean5 (xs.getD (p - 4) none) (xs.getD (p - 3) none) (xs.getD (p - 2) none)
        (xs.getD (p - 1) none) (xs.getD p none)
    else none

/-- The wide intermediate frame right before `drop('DATE')`/`astype(float)`/
`dropna`, column by column.  `DATE` itself is never a column here, matching
its drop before the final steps; all columns are numeric.  `backLag v i` is
the column `{v}_lag_(i+1)` (`i : Fin 30`), `fwdLag v j` is `{v}_lag_-(j+1)`
(`j : Fin 4`), `meanWindow v` is `{v}_mean_5d_window`. -/
structure FeatureTable where
  climate : Var → List (Option ℚ)
  year : List (Option ℚ)
  month : List (Option ℚ)
  dayOfYear : List (Option ℚ)
  weekOfYear : List (Option ℚ)
  season : List (Option ℚ)
  backLag : Var → Fin 30 → List (Option ℚ)
  fwdLag : Var → Fin 4 → List (Option ℚ)
  meanWindow : Var → List (Option ℚ)

/-- The season formula `(df['DATE'].dt.month % 12 + 3) // 3` for one row
(Python `%` is `Int.emod`, Python `//` is `Int.fdiv`). -/
def seasonOfMonth (m : ℤ) : ℤ := (m % 12 + 3).fdiv 3

/-- Build every feature column from the (already converted and filtered)
series: calendar columns, the 30 backward and 4 forward positional lags
per climate variable, and `shift(365).rolling(window=5).mean()`. -/
def buildTable (rows : List RawRow) : FeatureTable :=
  { climate := fun v => rows.map (fun r => r.val v)
    year := rows.map (fun r => some ((r.date.year : ℚ)))
    month := rows.map (fun r => some ((r.date.month : ℚ)))
    dayOfYear := rows.map (fun r => some ((r.date.dayOfYear : ℚ)))
    weekOfYear := rows.map (fun r => some ((r.date.weekOfYear : ℚ)))
    season := rows.map (fun r => some ((seasonOfMonth r.date.month : ℚ)))
    backLag := fun v i => shift ((i : ℕ) + 1) (rows.map (fun r => r.val v))
    fwdLag := fun v j => shift (-((j : ℕ) + 1)) (rows.map (fun r => r.val v))
    meanWindow := fun v => rolling5mean (shift 365 (rows.map (fun r => r.val v))) }

/-- Number of rows of the intermediate frame (all columns share it). -/
def FeatureTable.len (t : FeatureTable) : ℕ := (t.climate Var.PRCP).length

/-- Row `p` has no missing value in any column (`dropna` keeps it). -/
def rowComplete (t : FeatureTable) (p : ℕ) : Bool :=
  (Var.all.all fun v => ((t.climate v).getD p none).isSome)
    && (t.year.getD p none).isSome
    && (t.month.getD p none).isSome
    && (t.dayOfYear.getD p none).isSome
    && (t.weekOfYear.getD p none).isSome
    && (t.season.getD p none).isSome
    && (Var.all.all fun v => (List.finRange 30).all fun i =>
          ((t.backLag v i).getD p none).isSome)
    && (Var.all.all fun v => (List.finRange 4).all fun j =>
          ((t.fwdLag v j).getD p none).isSome)
    && (Var.all.all fun v => ((t.meanWindow v).getD p none).isSome)

/-- The row positions `dropna` keeps, in their original order. -/
def keepList (t : FeatureTable) : List ℕ :=
  (List.range t.len).filter (fun p => rowComplete t p)

/-- Restrict one column to the kept positions. -/
def selectIdx (keep : List ℕ) (xs : List (Option ℚ)) : List (Option ℚ) :=
  keep.map fun q => xs.getD q none

/-- Model of `df.dropna()`: every column restricted to the fully
populated rows. -/
def dropna (t : FeatureTable) : FeatureTable :=
  { climate := fun v => selectIdx (keepList t) (t.climate v)
    year := selectIdx (keepList t) t.year
    month := selectIdx (keepList t) t.month
    dayOfYear := selectIdx (keepList t) t.dayOfYear
    weekOfYear := selectIdx (keepList t) t.weekOfYear
    season := selectIdx (keepList t) t.season
    backLag := fun v i => selectIdx (keepList t) (t.backLag v i)
    fwdLag := fun v j => selectIdx (keepList t) (t.fwdLag v j)
    meanWindow := fun v => selectIdx (keepList t) (t.meanWindow v) }

/-- The whole of `feature_engineering_noaa_climate_data` after CSV parsing:
convert, filter, build all feature columns, drop `DATE`, drop incomplete
rows. -/
def featureBuilder (rows : List RawRow) : FeatureTable :=
  dropna (buildTable (filtered rows))

/-! ## Access lemmas for the column combinators -/

/-- Reading a column built as a map over `List.range`. -/
theorem getD_range_map (f : ℕ → Option ℚ) (n p : ℕ) :
    ((List.range n).map f).getD p none = if p < n then f p else none := by
  rcases Nat.lt_or_ge p n with h | h
  · rw [if_pos h, List.getD_eq_getElem?_getD, List.getElem?_map,
      List.getElem?_range h]
    rfl
  · rw [if_neg (Nat.not_lt.mpr h), List.getD_eq_getElem?_getD,
      List.getElem?_eq_none (by simpa using h)]
    rfl

/-- Reading a column built as a map over the row list, at an in-range
position. -/
theorem getD_map_row {α : Type} (f : α → Option ℚ) (rows : List α) (p : ℕ)
    (hp : p < rows.length) :
    (rows.map f).getD p none = f (rows.get ⟨p, hp⟩) := by
  rw [List.getD_eq_getElem?_getD, List.getElem?_map, List.getElem?_eq_getElem hp]
  rfl

theorem shift_length (i : ℤ) (xs : List (Option ℚ)) :
    (shift i xs).length = xs.length := by
  simp only [shift, List.length_map, List.length_range]

/-- Characterisation of `shift` at an in-range position. -/
theorem shift_getD (i : ℤ) (xs : List (Option ℚ)) (p : ℕ) (hp : p < xs.length) :
    (shift i xs).getD p none =
      if 0 ≤ (p : ℤ) - i then xs.getD ((p : ℤ) - i).toNat none else none := by
  rw [shift, getD_range_map, if_pos hp]

/-- `shift` is missing at every out-of-range position. -/
theorem getD_eq_none_of_len_le (xs : List (Option ℚ)) (p : ℕ)
    (hp : xs.length ≤ p) : xs.getD p none = none := by
  rw [List.getD_eq_getElem?_getD, List.getElem?_eq_none hp]
  rfl

theorem rolling5mean_length (xs : List (Option ℚ)) :
    (rolling5mean xs).length = xs.length := by
  simp only [rolling5mean, List.length_map, List.length_range]

/-- Characterisation of `rolling5mean` at an in-range position. -/
theorem rolling5mean_getD (xs : List (Option ℚ)) (p : ℕ) (hp : p < xs.length) :
    (rolling5mean xs).getD p none =
      if 4 ≤ p then
        mean5 (xs.getD (p - 4) none) (xs.getD (p - 3) none) (xs.getD (p - 2) none)
          (xs.getD (p - 1) none) (xs.getD p none)
      else none := by
  rw [rolling5mean, getD_range_map, if_pos hp]

theorem selectIdx_length (keep : List ℕ) (xs : List (Option ℚ)) :
    (selectIdx keep xs).length = keep.length := by
  simp [selectIdx]

theorem selectIdx_getD (keep : List ℕ) (xs : List (Option ℚ)) (p : ℕ)
    (hp : p < keep.length) :
    (selectIdx keep xs).getD p none = xs.getD (keep.get ⟨p, hp⟩) none := by
  rw [selectIdx, List.getD_eq_getElem?_getD, List.getElem?_map,
    List.getElem?_eq_getElem hp]
  rfl

theorem buildTable_len (rows : List RawRow) :
    (buildTable rows).len = rows.length := by
  simp [buildTable, FeatureTable.len]

theorem mean5_none_first (b c d e : Option ℚ) : mean5 none b c d e = none := by
  cases b <;> cases c <;> cases d <;> cases e <;> rfl

/-! ## The individual feature columns, read at a filtered position -/

theorem climate_getD (rows : List RawRow) (v : Var) (p : ℕ)
    (hp : p < rows.length) :
    ((buildTable rows).climate v).getD p none = (rows.get ⟨p, hp⟩).val v :=
  getD_map_row _ rows p hp

theorem climate_length (rows : List RawRow) (v : Var) :
    ((buildTable rows).climate v).length = rows.length := by
  simp [buildTable]

/-- Column `{v}_lag_(i+1)` at position `p`: the value `i+1` rows earlier,
missing when the series starts later than that. -/
theorem backLag_getD (rows : List RawRow) (v : Var) (i : Fin 30) (p : ℕ)
    (hp : p < rows.length) :
    ((buildTable rows).backLag v i).getD p none =
      if (i : ℕ) + 1 ≤ p then
        ((buildTable rows).climate v).getD (p - ((i : ℕ) + 1)) none
      else none := by
  have hlen : p < (rows.map (fun r => r.val v)).length := by simpa using hp
  show (shift ((i : ℕ) + 1) (rows.map (fun r => r.val v))).getD p none = _
  rw [shift_getD _ _ _ hlen]
  by_cases h : (i : ℕ) + 1 ≤ p
  · rw [if_pos (by omega : (0 : ℤ) ≤ (p : ℤ) - ((i : ℕ) + 1)), if_pos h]
    have : ((p : ℤ) - ((i : ℕ) + 1)).toNat = p - ((i : ℕ) + 1) := by omega
    rw [this]
    rfl
  · rw [if_neg (by omega : ¬ (0 : ℤ) ≤ (p : ℤ) - ((i : ℕ) + 1)), if_neg h]

/-- Column `{v}_lag_-(j+1)` at position `p`: the value `j+1` rows later,
missing past the end of the series. -/
theorem fwdLag_getD (rows : List RawRow) (v : Var) (j : Fin 4) (p : ℕ)
    (hp : p < rows.length) :
    ((buildTable rows).fwdLag v j).getD p none =
      ((buildTable rows).climate v).getD (p + ((j : ℕ) + 1)) none := by
  have hlen : p < (rows.map (fun r => r.val v)).length := by simpa using hp
  show (shift (-((j : ℕ) + 1)) (rows.map (fun r => r.val v))).getD p none = _
  rw [shift_getD _ _ _ hlen]
  rw [if_pos (by omega : (0 : ℤ) ≤ (p : ℤ) - -((j : ℕ) + 1))]
  have : ((p : ℤ) - -((j : ℕ) + 1)).toNat = p + ((j : ℕ) + 1) := by omega
  rw [this]
  rfl

/-- Column `{v}_mean_5d_window` at position `p`: the mean of the five
values at positions `p-369 .. p-365`, missing before position 369. -/
theorem meanWindow_getD (rows : List RawRow) (v : Var) (p : ℕ)
    (hp : p < rows.length) :
    ((buildTable rows).meanWindow v).getD p none =
      if 369 ≤ p then
        mean5 (((buildTable rows).climate v).getD (p - 369) none)
          (((buildTable rows).climate v).getD (p - 368) none)
          (((buildTable rows).climate v).getD (p - 367) none)
          (((buildTable rows).climate v).getD (p - 366) none)
          (((buildTable rows).climate v).getD (p - 365) none)
      else none := by
  have hlen : p < (shift 365 (rows.map (fun r => r.val v))).length := by
    rw [shift_length]
    simpa using hp
  have hclen : (rows.map (fun r => r.val v)).length = rows.length := by simp
  show (rolling5mean (shift 365 (rows.map (fun r => r.val v)))).getD p none = _
  rw [rolling5mean_getD _ _ hlen]
  by_cases h4 : 4 ≤ p
  · rw [if_pos h4]
    by_cases h : 369 ≤ p
    · rw [if_pos h]
      have g : ∀ k : ℕ, k ≤ 4 →
          (shift 365 (rows.map (fun r => r.val v))).getD (p - k) none =
            (rows.map (fun r => r.val v)).getD (p - 365 - k) none := by
        intro k hk
        rw [shift_getD _ _ _ (by rw [hclen]; omega)]
        rw [if_pos (by omega : (0 : ℤ) ≤ ((p - k : ℕ) : ℤ) - 365)]
        have : (((p - k : ℕ) : ℤ) - 365).toNat = p - 365 - k := by omega
        rw [this]
      have e4 : p - 365 - 4 = p - 369 := by omega
      have e3 : p - 365 - 3 = p - 368 := by omega
      have e2 : p - 365 - 2 = p - 367 := by omega
      have e1 : p - 365 - 1 = p - 366 := by omega
      have e0 : p - 365 - 0 = p - 365 := by omega
      have g4 := g 4 (by omega)
      have g3 := g 3 (by omega)
      have g2 := g 2 (by omega)
      have g1 := g 1 (by omega)
      have g0 := g 0 (by omega)
      rw [e4] at g4
      rw [e3] at g3
      rw [e2] at g2
      rw [e1] at g1
      rw [e0] at g0
      rw [g4, g3, g2, g1]
      rw [show p - 0 = p from rfl] at g0
      rw [g0]
      rfl
    · rw [if_neg h]
      have : (shift 365 (rows.map (fun r => r.val v))).getD (p - 4) none = none := by
        rw [shift_getD _ _ _ (by rw [hclen]; omega)]
        rw [if_neg (by omega : ¬ (0 : ℤ) ≤ ((p - 4 : ℕ) : ℤ) - 365)]
      rw [this, mean5_none_first]
  · rw [if_neg h4, if_neg (by omega : ¬ 369 ≤ p)]

theorem mean5_some (a b c d e : ℚ) :
    mean5 (some a) (some b) (some c) (some d) (some e) =
      some ((a + b + c + d + e) / 5) := rfl

/-! ## Calendar columns -/

theorem year_getD (rows : List RawRow) (p : ℕ) (hp : p < rows.length) :
    (buildTable rows).year.getD p none =
      some (((rows.get ⟨p, hp⟩).date.year : ℚ)) :=
  getD_map_row _ rows p hp

theorem month_getD (rows : List RawRow) (p : ℕ) (hp : p < rows.length) :
    (buildTable rows).month.getD p none =
      some (((rows.get ⟨p, hp⟩).date.month : ℚ)) :=
  getD_map_row _ rows p hp

theorem dayOfYear_getD (rows : List RawRow) (p : ℕ) (hp : p < rows.length) :
    (buildTable rows).dayOfYear.getD p none =
      some (((rows.get ⟨p, hp⟩).date.dayOfYear : ℚ)) :=
  getD_map_row _ rows p hp

theorem weekOfYear_getD (rows : List RawRow) (p : ℕ) (hp : p < rows.length) :
    (buildTable rows).weekOfYear.getD p none =
      some (((rows.get ⟨p, hp⟩).date.weekOfYear : ℚ)) :=
  getD_map_row _ rows p hp

theorem season_getD (rows : List RawRow) (p : ℕ) (hp : p < rows.length) :
    (buildTable rows).season.getD p none =
      some ((seasonOfMonth (rows.get ⟨p, hp⟩).date.month : ℚ)) :=
  getD_map_row _ rows p hp

/-! ## The filtered series -/

theorem filtered_year (rows : List RawRow) :
    ∀ r ∈ filtered rows, 2013 ≤ r.date.year := by
  intro r hr
  have := (List.mem_filter.mp hr).2
  exact of_decide_eq_true this

theorem filtered_from_input (rows : List RawRow) :
    ∀ r ∈ filtered rows, ∃ r0, r0 ∈ rows ∧ r = convert r0 := by
  intro r hr
  have hmem : r ∈ rows.map convert := List.mem_of_mem_filter hr
  obtain ⟨r0, hr0, heq⟩ := List.mem_map.mp hmem
  exact ⟨r0, hr0, heq.symm⟩

theorem convert_mem_filtered (rows : List RawRow) (r : RawRow)
    (hr : r ∈ rows) (hy : 2013 ≤ r.date.year) : convert r ∈ filtered rows := by
  refine List.mem_filter.mpr ⟨List.mem_map_of_mem convert hr, ?_⟩
  exact decide_eq_true hy

theorem filtered_allPresent (rows : List RawRow)
    (h : ∀ r ∈ rows, ∀ v, (r.val v).isSome = true) :
    ∀ r ∈ filtered rows, ∀ v, (r.val v).isSome = true := by
  intro r hr v
  obtain ⟨r0, hr0, rfl⟩ := filtered_from_input rows r hr
  cases v
  · exact h r0 hr0 Var.PRCP
  · have := h r0 hr0 Var.TMIN
    simpa [convert, RawRow.val] using this
  · have := h r0 hr0 Var.TAVG
    simpa [convert, RawRow.val] using this
  · have := h r0 hr0 Var.TMAX
    simpa [convert, RawRow.val] using this

/-! ## Which rows are complete, for a fully populated input -/

theorem allPresent_climate_getD (rows : List RawRow) (v : Var) (q : ℕ)
    (h : ∀ r ∈ rows, ∀ v, (r.val v).isSome = true) (hq : q < rows.length) :
    (((buildTable rows).climate v).getD q none).isSome = true := by
  rw [climate_getD rows v q hq]
  exact h _ (rows.get_mem _ _) v

/-- For an input with every climate value present, `dropna` keeps exactly
the positions with a full rolling window (`369 ≤ p`) and a full set of
forward lags (`p + 5 ≤ n`). -/
theorem rowComplete_iff (rows : List RawRow)
    (h : ∀ r ∈ rows, ∀ v, (r.val v).isSome = true) (p : ℕ) :
    rowComplete (buildTable rows) p = true ↔
      369 ≤ p ∧ p + 5 ≤ rows.length := by
  rw [rowComplete]
  simp only [Bool.and_eq_true, List.all_eq_true]
  by_cases hp : p < rows.length
  · constructor
    · rintro ⟨⟨⟨⟨⟨⟨⟨⟨h1, h2⟩, h3⟩, h4⟩, h5⟩, h6⟩, h7⟩, h8⟩, h9⟩
      have hmean := h9 Var.PRCP (by simp [Var.all])
      rw [meanWindow_getD rows Var.PRCP p hp] at hmean
      by_cases h369 : 369 ≤ p
      · refine ⟨h369, ?_⟩
        have hfwd := h8 Var.PRCP (by simp [Var.all]) ⟨3, by norm_num⟩
          (List.mem_finRange _)
        rw [fwdLag_getD rows Var.PRCP ⟨3, by norm_num⟩ p hp] at hfwd
        by_cases hlen : p + 4 < rows.length
        · omega
        · rw [getD_eq_none_of_len_le _ _
            (by rw [climate_length]; show rows.length ≤ p + (3 + 1); omega)] at hfwd
          simp at hfwd
      · rw [if_neg h369] at hmean
        simp at hmean
    · rintro ⟨h369, hlen⟩
      refine ⟨⟨⟨⟨⟨⟨⟨⟨?_, ?_⟩, ?_⟩, ?_⟩, ?_⟩, ?_⟩, ?_⟩, ?_⟩, ?_⟩
      · intro v _
        exact allPresent_climate_getD rows v p h hp
      · rw [year_getD rows p hp]
        rfl
      · rw [month_getD rows p hp]
        rfl
      · rw [dayOfYear_getD rows p hp]
        rfl
      · rw [weekOfYear_getD rows p hp]
        rfl
      · rw [season_getD rows p hp]
        rfl
      · intro v _ i _
        have hi := i.isLt
        rw [backLag_getD rows v i p hp, if_pos (by omega : (i : ℕ) + 1 ≤ p)]
        exact allPresent_climate_getD rows v _ h (by omega)
      · intro v _ j _
        have hj := j.isLt
        rw [fwdLag_getD rows v j p hp]
        exact allPresent_climate_getD rows v _ h (by omega)
      · intro v _
        rw [meanWindow_getD rows v p hp, if_pos h369]
        obtain ⟨a, ha⟩ := Option.isSome_iff_exists.mp
          (allPresent_climate_getD rows v (p - 369) h (by omega))
        obtain ⟨b, hb⟩ := Option.isSome_iff_exists.mp
          (allPresent_climate_getD rows v (p - 368) h (by omega))
        obtain ⟨c, hc⟩ := Option.isSome_iff_exists.mp
          (allPresent_climate_getD rows v (p - 367) h (by omega))
        obtain ⟨d, hd⟩ := Option.isSome_iff_exists.mp
          (allPresent_climate_getD rows v (p - 366) h (by omega))
        obtain ⟨e, he⟩ := Option.isSome_iff_exists.mp
          (allPresent_climate_getD rows v (p - 365) h (by omega))
        rw [ha, hb, hc, hd, he, mean5_some]
        rfl
  · constructor
    · rintro ⟨⟨⟨⟨⟨⟨⟨⟨h1, h2⟩, h3⟩, h4⟩, h5⟩, h6⟩, h7⟩, h8⟩, h9⟩
      have := h1 Var.PRCP (by simp [Var.all])
      rw [getD_eq_none_of_len_le _ _ (by rw [climate_length]; omega)] at this
      simp at this
    · rintro ⟨h369, hlen⟩
      exact absurd hlen (by omega)

/-! ## `dropna` as a selection of complete positions -/

theorem keepList_mem (t : FeatureTable) (p : ℕ) :
    p ∈ keepList t ↔ p < t.len ∧ rowComplete t p = true := by
  simp [keepList, List.mem_filter, List.mem_range]

theorem keepList_pairwise (t : FeatureTable) :
    (keepList t).Pairwise (· < ·) :=
  List.Pairwise.sublist (List.filter_sublist _) (List.pairwise_lt_range _)

theorem featureBuilder_length (rows : List RawRow) :
    ((featureBuilder rows).climate Var.PRCP).length =
      (keepList (buildTable (filtered rows))).length := by
  rw [featureBuilder]
  show (selectIdx _ _).length = _
  rw [selectIdx_length]

/-- Counting positions `a ≤ p < c` inside `range n`. -/
theorem length_filter_range_band (a c : ℕ) :
    ∀ n, ((List.range n).filter
        (fun p => decide (a ≤ p) && decide (p < c))).length = min c n - a := by
  intro n
  induction n with
  | zero => simp
  | succ n ih =>
    rw [List.range_succ, List.filter_append, List.length_append, ih]
    by_cases h1 : a ≤ n <;> by_cases h2 : n < c <;>
      simp [h1, h2] <;> omega

/-- For a fully populated input the number of surviving rows is
`n - 373` (truncated subtraction), `n` the filtered length. -/
theorem keepList_length_allPresent (rows : List RawRow)
    (h : ∀ r ∈ rows, ∀ v, (r.val v).isSome = true) :
    (keepList (buildTable rows)).length = rows.length - 373 := by
  have hcongr : keepList (buildTable rows) =
      (List.range rows.length).filter
        (fun p => decide (369 ≤ p) && decide (p < rows.length - 4)) := by
    rw [keepList, buildTable_len]
    apply List.filter_congr
    intro p hp
    have hp' : p < rows.length := List.mem_range.mp hp
    rw [Bool.eq_iff_iff]
    rw [rowComplete_iff rows h p]
    simp only [Bool.and_eq_true, decide_eq_true_eq]
    omega
  rw [hcongr, length_filter_range_band]
  omega

/-! ## Further consequences of a kept position -/

theorem dropna_rowComplete (t : FeatureTable) (p : ℕ)
    (hp : p < (keepList t).length) :
    rowComplete (dropna t) p = true := by
  have hk : (keepList t).get ⟨p, hp⟩ ∈ keepList t := List.get_mem _ _ hp
  have hkc := ((keepList_mem t _).mp hk).2
  rw [rowComplete] at hkc ⊢
  simp only [Bool.and_eq_true, List.all_eq_true] at hkc ⊢
  obtain ⟨⟨⟨⟨⟨⟨⟨⟨h1, h2⟩, h3⟩, h4⟩, h5⟩, h6⟩, h7⟩, h8⟩, h9⟩ := hkc
  refine ⟨⟨⟨⟨⟨⟨⟨⟨?_, ?_⟩, ?_⟩, ?_⟩, ?_⟩, ?_⟩, ?_⟩, ?_⟩, ?_⟩
  · intro v hv
    show ((selectIdx (keepList t) (t.climate v)).getD p none).isSome = true
    rw [selectIdx_getD _ _ _ hp]
    exact h1 v hv
  · show ((selectIdx (keepList t) t.year).getD p none).isSome = true
    rw [selectIdx_getD _ _ _ hp]
    exact h2
  · show ((selectIdx (keepList t) t.month).getD p none).isSome = true
    rw [selectIdx_getD _ _ _ hp]
    exact h3
  · show ((selectIdx (keepList t) t.dayOfYear).getD p none).isSome = true
    rw [selectIdx_getD _ _ _ hp]
    exact h4
  · show ((selectIdx (keepList t) t.weekOfYear).getD p none).isSome = true
    rw [selectIdx_getD _ _ _ hp]
    exact h5
  · show ((selectIdx (keepList t) t.season).getD p none).isSome = true
    rw [selectIdx_getD _ _ _ hp]
    exact h6
  · intro v hv i hi
    show ((selectIdx (keepList t) (t.backLag v i)).getD p none).isSome = true
    rw [selectIdx_getD _ _ _ hp]
    exact h7 v hv i hi
  · intro v hv j hj
    show ((selectIdx (keepList t) (t.fwdLag v j)).getD p none).isSome = true
    rw [selectIdx_getD _ _ _ hp]
    exact h8 v hv j hj
  · intro v hv
    show ((selectIdx (keepList t) (t.meanWindow v)).getD p none).isSome = true
    rw [selectIdx_getD _ _ _ hp]
    exact h9 v hv

/-- A kept position always has all 30 backward and all 4 forward lags
filled, whatever the input values are. -/
theorem kept_bounds (rows : List RawRow) (p : ℕ)
    (hp : p ∈ keepList (buildTable rows)) :
    30 ≤ p ∧ p + 4 < rows.length := by
  obtain ⟨hlt, hc⟩ := (keepList_mem _ _).mp hp
  rw [buildTable_len] at hlt
  rw [rowComplete] at hc
  simp only [Bool.and_eq_true, List.all_eq_true] at hc
  obtain ⟨⟨⟨⟨⟨⟨⟨⟨h1, h2⟩, h3⟩, h4⟩, h5⟩, h6⟩, h7⟩, h8⟩, h9⟩ := hc
  constructor
  · have hb := h7 Var.PRCP (by simp [Var.all]) ⟨29, by norm_num⟩
      (List.mem_finRange _)
    rw [backLag_getD rows Var.PRCP ⟨29, by norm_num⟩ p hlt] at hb
    by_cases h : ((⟨29, by norm_num⟩ : Fin 30) : ℕ) + 1 ≤ p
    · exact h
    · rw [if_neg h] at hb
      simp at hb
  · have hf := h8 Var.PRCP (by simp [Var.all]) ⟨3, by norm_num⟩
      (List.mem_finRange _)
    rw [fwdLag_getD rows Var.PRCP ⟨3, by norm_num⟩ p hlt] at hf
    by_cases h : p + (3 + 1) < rows.length
    · exact h
    · rw [getD_eq_none_of_len_le _ _
        (by rw [climate_length]; show rows.length ≤ p + (3 + 1); omega)] at hf
      simp at hf

/-! ## Concrete inputs used to exercise the theorems -/

/-- A 2013 row whose `PRCP` is the row's position, temperatures zero. -/
def testRow (k : ℕ) : RawRow :=
  { date := { year := 2013, month := 1, dayOfYear := 1, weekOfYear := 1 }
    PRCP := some (k : ℚ)
    TMIN := some 0
    TAVG := some 0
    TMAX := some 0 }

/-- 374 fully populated rows dated 2013, `PRCP` equal to the position. -/
def testRows374 : List RawRow := (List.range 374).map testRow

/-- Three fully populated rows dated 2013. -/
def testRows3 : List RawRow := (List.range 3).map testRow

/-- A single row dated 2012 (removed by the year filter). -/
def testRow2012 : RawRow :=
  { date := { year := 2012, month := 12, dayOfYear := 366, weekOfYear := 52 }
    PRCP := some 1
    TMIN := some 2
    TAVG := some 3
    TMAX := some 4 }

theorem testRow_allPresent (rows : List RawRow)
    (h : ∀ r ∈ rows, ∃ k, r = testRow k) :
    ∀ r ∈ rows, ∀ v, (r.val v).isSome = true := by
  intro r hr v
  obtain ⟨k, rfl⟩ := h r hr
  cases v <;> rfl

theorem map_testRow_allPresent (n : ℕ) :
    ∀ r ∈ (List.range n).map testRow, ∀ v, (r.val v).isSome = true := by
  apply testRow_allPresent
  intro r hr
  obtain ⟨k, _, rfl⟩ := List.mem_map.mp hr
  exact ⟨k, rfl⟩

theorem filtered_map_testRow (n : ℕ) :
    filtered ((List.range n).map testRow) =
      ((List.range n).map testRow).map convert := by
  rw [filtered]
  apply List.filter_eq_self.mpr
  intro r hr
  obtain ⟨r0, hr0, rfl⟩ := List.mem_map.mp hr
  obtain ⟨k, _, rfl⟩ := List.mem_map.mp hr0
  exact decide_eq_true (by norm_num [convert, testRow])

theorem filtered_map_testRow_length (n : ℕ) :
    (filtered ((List.range n).map testRow)).length = n := by
  rw [filtered_map_testRow]
  simp

theorem filtered_map_testRow_allPresent (n : ℕ) :
    ∀ r ∈ filtered ((List.range n).map testRow), ∀ v,
      (r.val v).isSome = true :=
  filtered_allPresent _ (map_testRow_allPresent n)

theorem testRows374_keep_length :
    (keepList (buildTable (filtered testRows374))).length = 1 := by
  rw [testRows374, keepList_length_allPresent _ (filtered_map_testRow_allPresent 374),
    filtered_map_testRow_length]

theorem testRows374_out_length :
    ((featureBuilder testRows374).climate Var.PRCP).length = 1 := by
  rw [featureBuilder_length, testRows374_keep_length]

theorem backLag_length (rows : List RawRow) (v : Var) (i : Fin 30) :
    ((buildTable rows).backLag v i).length = rows.length := by
  show (shift _ _).length = _
  rw [shift_length]
  simp

theorem fwdLag_length (rows : List RawRow) (v : Var) (j : Fin 4) :
    ((buildTable rows).fwdLag v j).length = rows.length := by
  show (shift _ _).length = _
  rw [shift_length]
  simp

theorem meanWindow_length (rows : List RawRow) (v : Var) :
    ((buildTable rows).meanWindow v).length = rows.length := by
  show (rolling5mean (shift _ _)).length = _
  rw [rolling5mean_length, shift_length]
  simp

/-! ## The claims -/

/-- C1: for every climate variable and every position `p` of the filtered
series, `{var}_mean_5d_window` at `p` is the trailing 5-row mean of the
series shifted by 365: the mean of the values at filtered positions
`p-369 .. p-365`, and missing whenever fewer than 5 shifted values are
available (no partial-window averaging). -/
theorem meanWindow_spec (rows : List RawRow) (v : Var) (p : ℕ)
    (hp : p < (filtered rows).length) :
    ((buildTable (filtered rows)).meanWindow v).getD p none =
      if 369 ≤ p then
        mean5 (((buildTable (filtered rows)).climate v).getD (p - 369) none)
          (((buildTable (filtered rows)).climate v).getD (p - 368) none)
          (((buildTable (filtered rows)).climate v).getD (p - 367) none)
          (((buildTable (filtered rows)).climate v).getD (p - 366) none)
          (((buildTable (filtered rows)).climate v).getD (p - 365) none)
      else none :=
  meanWindow_getD (filtered rows) v p hp

theorem meanWindow_spec_witness :
    ((buildTable (filtered testRows374)).meanWindow Var.PRCP).getD 369 none =
      if 369 ≤ 369 then
        mean5
          (((buildTable (filtered testRows374)).climate Var.PRCP).getD (369 - 369) none)
          (((buildTable (filtered testRows374)).climate Var.PRCP).getD (369 - 368) none)
          (((buildTable (filtered testRows374)).climate Var.PRCP).getD (369 - 367) none)
          (((buildTable (filtered testRows374)).climate Var.PRCP).getD (369 - 366) none)
          (((buildTable (filtered testRows374)).climate Var.PRCP).getD (369 - 365) none)
      else none :=
  meanWindow_spec testRows374 Var.PRCP 369
    (by rw [testRows374, filtered_map_testRow_length]; omega)

/-- C2 as written is false: at position 369 of a fully populated filtered
series whose `PRCP` value at position `k` is `k`, the code computes the
mean of positions `0 .. 4` (that is, `2`), not the mean of positions
`4 .. 8` claimed by `p-365 .. p-361`. -/
theorem filtered_testRows374_getD (k : ℕ) (hk : k < 374) :
    ((buildTable (filtered testRows374)).climate Var.PRCP).getD k none =
      some ((k : ℚ)) := by
  have hn : (filtered testRows374).length = 374 := by
    rw [testRows374]
    exact filtered_map_testRow_length 374
  rw [climate_getD _ Var.PRCP k (by omega)]
  have he : filtered testRows374 =
      (List.range 374).map (fun k => convert (testRow k)) := by
    rw [testRows374, filtered_map_testRow, List.map_map]
    rfl
  rw [List.get_of_eq he]
  simp only [List.get_eq_getElem, List.getElem_map, List.getElem_range]
  rfl

theorem meanWindow_start_counterexample :
    ¬ (((buildTable (filtered testRows374)).meanWindow Var.PRCP).getD 369 none =
        mean5
          (((buildTable (filtered testRows374)).climate Var.PRCP).getD (369 - 365) none)
          (((buildTable (filtered testRows374)).climate Var.PRCP).getD (369 - 364) none)
          (((buildTable (filtered testRows374)).climate Var.PRCP).getD (369 - 363) none)
          (((buildTable (filtered testRows374)).climate Var.PRCP).getD (369 - 362) none)
          (((buildTable (filtered testRows374)).climate Var.PRCP).getD (369 - 361) none)) := by
  have hn : (filtered testRows374).length = 374 := by
    rw [testRows374]
    exact filtered_map_testRow_length 374
  have hL := meanWindow_getD (filtered testRows374) Var.PRCP 369 (by omega)
  rw [if_pos (by omega : 369 ≤ 369)] at hL
  intro h
  rw [hL] at h
  simp only [show 369 - 369 = 0 from rfl, show 369 - 368 = 1 from rfl,
    show 369 - 367 = 2 from rfl, show 369 - 366 = 3 from rfl,
    show 369 - 365 = 4 from rfl, show 369 - 364 = 5 from rfl,
    show 369 - 363 = 6 from rfl, show 369 - 362 = 7 from rfl,
    show 369 - 361 = 8 from rfl] at h
  rw [filtered_testRows374_getD 0 (by omega), filtered_testRows374_getD 1 (by omega),
    filtered_testRows374_getD 2 (by omega), filtered_testRows374_getD 3 (by omega),
    filtered_testRows374_getD 4 (by omega), filtered_testRows374_getD 5 (by omega),
    filtered_testRows374_getD 6 (by omega), filtered_testRows374_getD 7 (by omega),
    filtered_testRows374_getD 8 (by omega)] at h
  rw [mean5_some, mean5_some] at h
  simp only [Option.some.injEq] at h
  norm_num at h

/-- C2 amended: for every climate variable and every position `p ≥ 369` of
the filtered series, `{var}_mean_5d_window` at `p` equals the mean of the
values at filtered positions `p-369, p-368, p-367, p-366, p-365`. -/
theorem meanWindow_tail_spec (rows : List RawRow) (v : Var) (p : ℕ)
    (hp : p < (filtered rows).length) (h369 : 369 ≤ p) :
    ((buildTable (filtered rows)).meanWindow v).getD p none =
      mean5 (((buildTable (filtered rows)).climate v).getD (p - 369) none)
        (((buildTable (filtered rows)).climate v).getD (p - 368) none)
        (((buildTable (filtered rows)).climate v).getD (p - 367) none)
        (((buildTable (filtered rows)).climate v).getD (p - 366) none)
        (((buildTable (filtered rows)).climate v).getD (p - 365) none) := by
  rw [meanWindow_getD (filtered rows) v p hp, if_pos h369]

theorem meanWindow_tail_spec_witness :
    ((buildTable (filtered testRows374)).meanWindow Var.PRCP).getD 370 none =
      mean5
        (((buildTable (filtered testRows374)).climate Var.PRCP).getD (370 - 369) none)
        (((buildTable (filtered testRows374)).climate Var.PRCP).getD (370 - 368) none)
        (((buildTable (filtered testRows374)).climate Var.PRCP).getD (370 - 367) none)
        (((buildTable (filtered testRows374)).climate Var.PRCP).getD (370 - 366) none)
        (((buildTable (filtered testRows374)).climate Var.PRCP).getD (370 - 365) none) :=
  meanWindow_tail_spec testRows374 Var.PRCP 370
    (by rw [testRows374, filtered_map_testRow_length]; omega) (by omega)

/-- C3: for every climate variable, every filtered position `r` and every
`i`, the backward-lag column `{var}_lag_(i+1)` at `r` holds the series
value at `r-(i+1)` (missing when the series starts later), and the
forward-lag column `{var}_lag_-(j+1)` at `r` holds the series value at
`r+(j+1)` (missing past the end of the series). -/
theorem lag_spec (rows : List RawRow) (v : Var) (r : ℕ)
    (hr : r < (filtered rows).length) :
    (∀ i : Fin 30,
        ((buildTable (filtered rows)).backLag v i).getD r none =
          if (i : ℕ) + 1 ≤ r then
            ((buildTable (filtered rows)).climate v).getD (r - ((i : ℕ) + 1)) none
          else none)
      ∧ (∀ j : Fin 4,
          ((buildTable (filtered rows)).fwdLag v j).getD r none =
            ((buildTable (filtered rows)).climate v).getD (r + ((j : ℕ) + 1)) none) := by
  constructor
  · intro i
    exact backLag_getD _ v i r hr
  · intro j
    exact fwdLag_getD _ v j r hr

theorem lag_spec_witness :
    ((buildTable (filtered testRows3)).backLag Var.PRCP (0 : Fin 30)).getD 2 none =
      if ((0 : Fin 30) : ℕ) + 1 ≤ 2 then
        ((buildTable (filtered testRows3)).climate Var.PRCP).getD
          (2 - (((0 : Fin 30) : ℕ) + 1)) none
      else none :=
  (lag_spec testRows3 Var.PRCP 2
    (by rw [testRows3, filtered_map_testRow_length]; omega)).1 (0 : Fin 30)

/-- C4: no row of the final output has a missing value in any column;
the first 30 (in fact 369) and the last 4 positions of the filtered
series are never kept; the kept positions stay in increasing
(chronological) order. -/
theorem dropna_spec (rows : List RawRow) :
    (∀ p : ℕ, p < (keepList (buildTable (filtered rows))).length →
        rowComplete (featureBuilder rows) p = true)
      ∧ (∀ p ∈ keepList (buildTable (filtered rows)),
          30 ≤ p ∧ p + 4 < (filtered rows).length)
      ∧ (keepList (buildTable (filtered rows))).Pairwise (· < ·) := by
  refine ⟨?_, ?_, keepList_pairwise _⟩
  · intro p hp
    exact dropna_rowComplete _ p hp
  · intro p hp
    exact kept_bounds _ p hp

theorem dropna_spec_witness :
    rowComplete (featureBuilder testRows374) 0 = true :=
  (dropna_spec testRows374).1 0 (by rw [testRows374_keep_length]; omega)

/-- C5: every row surviving the year filter has year ≥ 2013; a converted
row with year ≥ 2013 does survive it; and every value a lag column holds
(backward or forward) is the value of some retained, year ≥ 2013 row of
the filtered series — never of an excluded pre-2013 row. -/
theorem year_filter_spec (rows : List RawRow) :
    (∀ r ∈ filtered rows, 2013 ≤ r.date.year)
      ∧ (∀ r ∈ rows, 2013 ≤ r.date.year → convert r ∈ filtered rows)
      ∧ (∀ v : Var, ∀ i : Fin 30, ∀ p : ℕ, ∀ x : ℚ,
          ((buildTable (filtered rows)).backLag v i).getD p none = some x →
            ∃ q : Fin (filtered rows).length,
              ((filtered rows).get q).val v = some x ∧
                2013 ≤ ((filtered rows).get q).date.year)
      ∧ (∀ v : Var, ∀ j : Fin 4, ∀ p : ℕ, ∀ x : ℚ,
          ((buildTable (filtered rows)).fwdLag v j).getD p none = some x →
            ∃ q : Fin (filtered rows).length,
              ((filtered rows).get q).val v = some x ∧
                2013 ≤ ((filtered rows).get q).date.year) := by
  refine ⟨filtered_year rows, convert_mem_filtered rows, ?_, ?_⟩
  · intro v i p x hx
    by_cases hp : p < (filtered rows).length
    · rw [backLag_getD _ v i p hp] at hx
      by_cases hc : (i : ℕ) + 1 ≤ p
      · rw [if_pos hc] at hx
        have hq : p - ((i : ℕ) + 1) < (filtered rows).length := by omega
        rw [climate_getD _ v _ hq] at hx
        exact ⟨⟨p - ((i : ℕ) + 1), hq⟩, hx,
          filtered_year rows _ (List.get_mem _ _ hq)⟩
      · rw [if_neg hc] at hx
        exact absurd hx (by simp)
    · rw [getD_eq_none_of_len_le _ _ (by rw [backLag_length]; omega)] at hx
      exact absurd hx (by simp)
  · intro v j p x hx
    by_cases hp : p < (filtered rows).length
    · rw [fwdLag_getD _ v j p hp] at hx
      by_cases hq : p + ((j : ℕ) + 1) < (filtered rows).length
      · rw [climate_getD _ v _ hq] at hx
        exact ⟨⟨p + ((j : ℕ) + 1), hq⟩, hx,
          filtered_year rows _ (List.get_mem _ _ hq)⟩
      · rw [getD_eq_none_of_len_le _ _ (by rw [climate_length]; omega)] at hx
        exact absurd hx (by simp)
    · rw [getD_eq_none_of_len_le _ _ (by rw [fwdLag_length]; omega)] at hx
      exact absurd hx (by simp)

/-- A two-row input: one pre-2013 row and one 2013 row. -/
def testRowsMixed : List RawRow := [testRow2012, testRow 0]

theorem year_filter_spec_witness :
    convert (testRow 0) ∈ filtered testRowsMixed :=
  (year_filter_spec testRowsMixed).2.1 (testRow 0)
    (by simp [testRowsMixed]) (by norm_num [testRow])

/-- C6: every surviving output row is derived from an input row `r`:
its `PRCP` is `r`'s unchanged, and its `TMIN`, `TAVG`, `TMAX` are `r`'s
transformed by `value / 10 * (9 / 5) + 32`; in particular an input
temperature of 100 tenths of a degree yields 50 degrees. -/
theorem conversion_spec (rows : List RawRow) (p : ℕ)
    (hp : p < ((featureBuilder rows).climate Var.PRCP).length) :
    (∃ r, r ∈ rows ∧
      ((featureBuilder rows).climate Var.PRCP).getD p none = r.PRCP ∧
      ((featureBuilder rows).climate Var.TMIN).getD p none = r.TMIN.map tenthsCtoF ∧
      ((featureBuilder rows).climate Var.TAVG).getD p none = r.TAVG.map tenthsCtoF ∧
      ((featureBuilder rows).climate Var.TMAX).getD p none = r.TMAX.map tenthsCtoF)
      ∧ tenthsCtoF 100 = 50 := by
  constructor
  · have hp' : p < (keepList (buildTable (filtered rows))).length := by
      rw [featureBuilder_length] at hp
      exact hp
    have hkmem : (keepList (buildTable (filtered rows))).get ⟨p, hp'⟩ ∈
        keepList (buildTable (filtered rows)) := List.get_mem _ _ hp'
    have hklt := ((keepList_mem _ _).mp hkmem).1
    rw [buildTable_len] at hklt
    have hgetcol : ∀ v : Var, ((featureBuilder rows).climate v).getD p none =
        ((filtered rows).get ⟨_, hklt⟩).val v := by
      intro v
      show (selectIdx (keepList (buildTable (filtered rows)))
        ((buildTable (filtered rows)).climate v)).getD p none = _
      rw [selectIdx_getD _ _ _ hp']
      exact climate_getD (filtered rows) v _ hklt
    obtain ⟨r0, hr0, heq⟩ := filtered_from_input rows _ (List.get_mem _ _ hklt)
    refine ⟨r0, hr0, ?_, ?_, ?_, ?_⟩
    · rw [hgetcol Var.PRCP, heq]
      rfl
    · rw [hgetcol Var.TMIN, heq]
      rfl
    · rw [hgetcol Var.TAVG, heq]
      rfl
    · rw [hgetcol Var.TMAX, heq]
      rfl
  · norm_num [tenthsCtoF]

theorem conversion_spec_witness :
    ((∃ r, r ∈ testRows374 ∧
      ((featureBuilder testRows374).climate Var.PRCP).getD 0 none = r.PRCP ∧
      ((featureBuilder testRows374).climate Var.TMIN).getD 0 none = r.TMIN.map tenthsCtoF ∧
      ((featureBuilder testRows374).climate Var.TAVG).getD 0 none = r.TAVG.map tenthsCtoF ∧
      ((featureBuilder testRows374).climate Var.TMAX).getD 0 none = r.TMAX.map tenthsCtoF)
      ∧ tenthsCtoF 100 = 50) :=
  conversion_spec testRows374 0 (by rw [testRows374_out_length]; omega)

/-- C7: the `SEASON` column always equals `(month % 12 + 3) // 3`, which
for months 1..12 lies in 1..4 and maps Dec-Feb to 1, Mar-May to 2,
Jun-Aug to 3 and Sep-Nov to 4. -/
theorem season_spec (rows : List RawRow) (p : ℕ) (hp : p < rows.length) :
    (buildTable rows).season.getD p none =
      some ((seasonOfMonth (rows.get ⟨p, hp⟩).date.month : ℚ)) ∧
    (∀ m : ℤ, 1 ≤ m → m ≤ 12 →
      (1 ≤ seasonOfMonth m ∧ seasonOfMonth m ≤ 4) ∧
      ((m = 12 ∨ m = 1 ∨ m = 2) → seasonOfMonth m = 1) ∧
      ((m = 3 ∨ m = 4 ∨ m = 5) → seasonOfMonth m = 2) ∧
      ((m = 6 ∨ m = 7 ∨ m = 8) → seasonOfMonth m = 3) ∧
      ((m = 9 ∨ m = 10 ∨ m = 11) → seasonOfMonth m = 4)) := by
  refine ⟨season_getD rows p hp, ?_⟩
  intro m h1 h2
  interval_cases m <;> exact (by decide)

theorem season_spec_witness :
    (buildTable [testRow 0]).season.getD 0 none =
      some ((seasonOfMonth (([testRow 0]).get ⟨0, by norm_num⟩).date.month : ℚ)) :=
  (season_spec [testRow 0] 0 (by norm_num)).1

/-- C8: for a fully populated input, the kept positions are exactly the
filtered positions `p` with `369 ≤ p` and `p + 5 ≤ n`; the output has
`n - 373` rows (so it is empty whenever `n < 374`). -/
theorem surviving_rows_spec (rows : List RawRow)
    (hall : ∀ r ∈ rows, ∀ v, (r.val v).isSome = true) :
    (∀ p : ℕ, p ∈ keepList (buildTable (filtered rows)) ↔
        369 ≤ p ∧ p + 5 ≤ (filtered rows).length)
      ∧ ((featureBuilder rows).climate Var.PRCP).length =
          (filtered rows).length - 373
      ∧ ((filtered rows).length < 374 →
          ((featureBuilder rows).climate Var.PRCP).length = 0) := by
  have hfp := filtered_allPresent rows hall
  have hlen : ((featureBuilder rows).climate Var.PRCP).length =
      (filtered rows).length - 373 := by
    rw [featureBuilder_length, keepList_length_allPresent _ hfp]
  refine ⟨?_, hlen, ?_⟩
  · intro p
    rw [keepList_mem, buildTable_len, rowComplete_iff _ hfp p]
    constructor
    · rintro ⟨h1, h2⟩
      exact h2
    · rintro ⟨h1, h2⟩
      exact ⟨by omega, h1, h2⟩
  · intro hsmall
    omega

theorem surviving_rows_spec_witness :
    ((featureBuilder testRows3).climate Var.PRCP).length =
      (filtered testRows3).length - 373 :=
  (surviving_rows_spec testRows3 (map_testRow_allPresent 3)).2.1

/-- C9: an input that parses but whose rows all predate 2013 is empty
after the filter, and FeatureBuilder returns the valid zero-row table
(every column empty) rather than failing. -/
theorem empty_filter_spec (rows : List RawRow)
    (h : ∀ r ∈ rows, r.date.year < 2013) :
    filtered rows = [] ∧
    (∀ v, (featureBuilder rows).climate v = []) ∧
    (featureBuilder rows).year = [] ∧
    (featureBuilder rows).month = [] ∧
    (featureBuilder rows).dayOfYear = [] ∧
    (featureBuilder rows).weekOfYear = [] ∧
    (featureBuilder rows).season = [] ∧
    (∀ v i, (featureBuilder rows).backLag v i = []) ∧
    (∀ v j, (featureBuilder rows).fwdLag v j = []) ∧
    (∀ v, (featureBuilder rows).meanWindow v = []) := by
  have hf : filtered rows = [] := by
    rw [filtered]
    apply List.filter_eq_nil_iff.mpr
    intro a ha
    obtain ⟨r0, hr0, rfl⟩ := List.mem_map.mp ha
    have := h r0 hr0
    simp only [convert, decide_eq_true_eq]
    omega
  have hb : featureBuilder rows = dropna (buildTable []) := by
    rw [featureBuilder, hf]
  refine ⟨hf, ?_, ?_, ?_, ?_, ?_, ?_, ?_, ?_, ?_⟩
  · intro v
    rw [hb]
    cases v <;> rfl
  · rw [hb]
    rfl
  · rw [hb]
    rfl
  · rw [hb]
    rfl
  · rw [hb]
    rfl
  · rw [hb]
    rfl
  · intro v i
    rw [hb]
    rfl
  · intro v j
    rw [hb]
    rfl
  · intro v
    rw [hb]
    rfl

theorem empty_filter_spec_witness :
    filtered [testRow2012] = [] :=
  (empty_filter_spec [testRow2012]
    (by intro r hr; rw [List.mem_singleton.mp hr]; norm_num [testRow2012])).1

/-- C10: FeatureBuilder is deterministic — two runs on equal inputs give
equal outputs.  (It is a pure function of its input by construction.) -/
theorem determinism_spec (rows1 rows2 : List RawRow) (h : rows1 = rows2) :
    featureBuilder rows1 = featureBuilder rows2 := by
  rw [h]

theorem determinism_spec_witness :
    featureBuilder [testRow 0] = featureBuilder [testRow 0] :=
  determinism_spec [testRow 0] [testRow 0] rfl
